import Mathlib

/-!
Verification development for the hahm-mqtt adapter (hahmmqtt package).

The repository wraps the external `hahomematic` backend library.  The
definitions below are a shallow embedding of the active Python code in
`src/hahmmqtt/control_unit.py` and `src/hahmmqtt/const.py`:

* Python `dict`s are modelled as association lists with Python semantics
  (insert replaces in place, `del` raises `KeyError` on a missing key,
  indexing a missing key raises `KeyError`, modelled with `Option`).
* `async` methods are modelled as pure state transformers; the backend
  coroutines the adapter awaits are modelled by an explicit `BackendCall`
  alphabet together with a `backend` function supplied as a parameter
  (`Except ε Unit` results model success or a raised backend exception).
* Constants imported from the backend library (`IP_ANY_V4`, `PORT_ANY`,
  `PARAMSET_KEY_MASTER`) are reproduced with their library values; the
  claims proved below do not depend on the particular values.
-/

/-- Lookup in an association list: the value of the first pair whose key
matches, mirroring Python `dict` indexing (`None` models `KeyError`). -/
def dictLookup {κ β : Type} [DecidableEq κ] (k : κ) : List (κ × β) → Option β
  | [] => none
  | (k₀, v) :: rest => if k₀ = k then some v else dictLookup k rest

/-- Insertion into an association list mirroring Python `d[k] = v`:
replace the first binding of `k` in place, else append at the end. -/
def dictInsert {κ β : Type} [DecidableEq κ] (k : κ) (v : β) : List (κ × β) → List (κ × β)
  | [] => [(k, v)]
  | (k₀, v₀) :: rest => if k₀ = k then (k, v) :: rest else (k₀, v₀) :: dictInsert k v rest

/-- Deletion from an association list mirroring Python `del d[k]`:
remove the first binding of `k`; `none` models the raised `KeyError`
when `k` is absent. -/
def dictRemove {κ β : Type} [DecidableEq κ] (k : κ) : List (κ × β) → Option (List (κ × β))
  | [] => none
  | (k₀, v₀) :: rest =>
    if k₀ = k then some rest else (dictRemove k rest).map (fun m => (k₀, v₀) :: m)

/-- In-place `d[k].append(x)` on a dict of lists, mirroring the loop body of
`ControlUnit.async_get_new_hm_entities`; `none` models the `KeyError`
raised when `k` is not a key of the dict. -/
def dictAppend {κ β : Type} [DecidableEq κ] (k : κ) (x : β) :
    List (κ × List β) → Option (List (κ × List β))
  | [] => none
  | (k₀, l₀) :: rest =>
    if k₀ = k then some ((k₀, l₀ ++ [x]) :: rest)
    else (dictAppend k x rest).map (fun m => (k₀, l₀) :: m)

/-- Value of the backend-library constant `hahomematic.const.IP_ANY_V4`
imported by `control_unit.py`. -/
def IP_ANY_V4 : String := "0.0.0.0"

/-- Value of the backend-library constant `hahomematic.const.PORT_ANY`
imported by `control_unit.py`. -/
def PORT_ANY : Int := 0

/-- Value of the backend-library constant
`hahomematic.const.PARAMSET_KEY_MASTER` used by
`HmScheduler._async_fetch_master_data`. -/
def PARAMSET_KEY_MASTER : String := "MASTER"

/-- Seconds of `const.SYSVAR_SCAN_INTERVAL = timedelta(seconds=30)`. -/
def SYSVAR_SCAN_INTERVAL : Nat := 30

/-- Seconds of `const.MASTER_SCAN_INTERVAL = timedelta(seconds=300)`. -/
def MASTER_SCAN_INTERVAL : Nat := 300

/-- One entry of the `interface` sub-mapping of the configuration data
consumed by `BaseControlUnit._async_create_central` (keys `port` and the
optional `path`). -/
structure InterfaceData where
  port : Int
  path : Option String
  deriving DecidableEq, Repr

/-- The configuration mapping consumed by the adapter (spec section 6;
accessed via the `ATTR_*` keys in `control_unit.py`).  The `interface`
dict is an association list from interface name to its entry. -/
structure ConfigData where
  instance_name : String
  host : String
  username : String
  password : String
  tls : Bool
  verify_tls : Bool
  callback_host : Option String
  callback_port : Option Int
  json_port : Option Int
  interface : List (String × InterfaceData)
  deriving DecidableEq, Repr

/-- Model of `ControlConfig.__init__` (control_unit.py lines 565-574):
it stores its three constructor arguments. -/
structure ControlConfig where
  entry_id : String
  data : ConfigData
  default_callback_port : Int
  deriving DecidableEq, Repr

/-- Arguments of one `hahomematic.client.InterfaceConfig` constructed in
`BaseControlUnit._async_create_central` (lines 144-151). -/
structure InterfaceConfig where
  central_name : String
  interface : String
  port : Int
  path : Option String
  deriving DecidableEq, Repr

/-- The arguments passed to the backend `CentralConfig` constructor by
`BaseControlUnit._async_create_central` (lines 154-172).  The Python
`set` of interface configs is modelled as the list in dict-iteration
order. -/
structure CentralConfigArgs where
  name : String
  storage_folder : String
  host : String
  username : String
  password : String
  central_id : String
  tls : Bool
  verify_tls : Bool
  json_port : Option Int
  callback_host : Option String
  callback_port : Option Int
  default_callback_port : Int
  interface_configs : List InterfaceConfig
  deriving DecidableEq, Repr

/-- State stored by `BaseControlUnit.__init__` (lines 85-91); `γ` is the
type of the backend central-unit handle, `_central` starts as `None`. -/
structure BaseControlUnitState (γ : Type) where
  _entry_id : String
  _config_data : ConfigData
  _default_callback_port : Int
  _instance_name : String
  _central : Option γ
  deriving DecidableEq, Repr

/-- Model of `BaseControlUnit.__init__` (control_unit.py lines 85-91). -/
def BaseControlUnit.init (γ : Type) (control_config : ControlConfig) : BaseControlUnitState γ :=
  { _entry_id := control_config.entry_id
  , _config_data := control_config.data
  , _default_callback_port := control_config.default_callback_port
  , _instance_name := control_config.data.instance_name
  , _central := none }

/-- The `CentralConfig` constructor arguments built by
`BaseControlUnit._async_create_central` (lines 139-172): the interface
configs come from the `interface` dict entries, `central_id` is the last
10 characters of the entry id, and `callback_host` / `callback_port` are
replaced by `None` when they equal the backend sentinels `IP_ANY_V4` /
`PORT_ANY`. -/
def BaseControlUnit.async_create_central_args {γ : Type}
    (st : BaseControlUnitState γ) : CentralConfigArgs :=
  let interface_configs : List InterfaceConfig :=
    st._config_data.interface.map (fun p =>
      { central_name := st._instance_name
      , interface := p.1
      , port := p.2.port
      , path := p.2.path })
  let central_id := st._entry_id.drop (st._entry_id.length - 10)
  { name := st._instance_name
  , storage_folder := "hahm-mqtt"
  , host := st._config_data.host
  , username := st._config_data.username
  , password := st._config_data.password
  , central_id := central_id
  , tls := st._config_data.tls
  , verify_tls := st._config_data.verify_tls
  , json_port := st._config_data.json_port
  , callback_host :=
      if st._config_data.callback_host = some IP_ANY_V4 then none
      else st._config_data.callback_host
  , callback_port :=
      if st._config_data.callback_port = some PORT_ANY then none
      else st._config_data.callback_port
  , default_callback_port := st._default_callback_port
  , interface_configs := interface_configs }

/-- Model of `BaseControlUnit.async_init_central` (lines 93-99): store the
central-unit handle obtained by awaiting `get_central()` on the built
configuration; `backend` models the backend library's construction. -/
def BaseControlUnit.async_init_central {γ : Type}
    (backend : CentralConfigArgs → γ) (st : BaseControlUnitState γ) : BaseControlUnitState γ :=
  { st with _central := some (backend (BaseControlUnit.async_create_central_args st)) }

/-- Model of the `BaseControlUnit.central` property (lines 132-137):
return the stored handle, or raise a bare `Exception` (a builtin, not an
adapter-defined exception class) when it was never initialized. -/
def BaseControlUnit.central_property {γ : Type}
    (st : BaseControlUnitState γ) : Except String γ :=
  match st._central with
  | some c => Except.ok c
  | none => Except.error "homematicip_local.central not initialized"

/-- State stored by `HmScheduler.__init__` (lines 586-597): the control
unit and hub references are stored; the two `async_track_time_interval`
registrations of the original design are commented out in the source, so
the listener-remover slots they would fill are modelled as fields that
`init` leaves unset. -/
structure HmSchedulerState (γ η : Type) where
  _control : γ
  _hm_hub : η
  remove_sysvar_listener : Option Nat
  remove_master_listener : Option Nat
  deriving DecidableEq, Repr

/-- Model of `HmScheduler.__init__` (control_unit.py lines 586-597). -/
def HmScheduler.init {γ η : Type} (control_unit : γ) (hm_hub : η) : HmSchedulerState γ η :=
  { _control := control_unit
  , _hm_hub := hm_hub
  , remove_sysvar_listener := none
  , remove_master_listener := none }

/-- A reference to a callback function stored in a central-unit callback
slot: one of the three adapter methods registered by
`ControlUnit.async_init_central`, or any function not defined by the
adapter. -/
inductive HmCallbackRef where
  | adapter_callback_entity_event
  | adapter_callback_system_event
  | adapter_callback_ha_event
  | external_callback (n : Nat)
  deriving DecidableEq, Repr

/-- Model of the backend `CentralUnit` handle as far as the adapter
touches it: the three callback slots the adapter assigns
(`callback_entity_event`, `callback_system_event`, `callback_ha_event`),
the name used in logs, and `rest : ρ` standing for every other field and
callback slot of the backend object, which the adapter never writes. -/
structure CentralUnit (ρ : Type) where
  name : String
  callback_entity_event : Option HmCallbackRef
  callback_system_event : Option HmCallbackRef
  callback_ha_event : Option HmCallbackRef
  rest : ρ
  deriving DecidableEq, Repr

/-- Model of the backend `HmEntityUsage` enum
(`hahomematic.const.HmEntityUsage`); only `ENTITY_NO_CREATE` is
inspected by the adapter. -/
inductive HmEntityUsage where
  | ce_primary
  | ce_secondary
  | ce_visible
  | entity
  | entity_no_create
  | event
  deriving DecidableEq, Repr

/-- The attributes of a backend `BaseEntity` read by the adapter:
`usage`, `unique_identifier` and `platform`; `π` is the backend
`HmPlatform` enum type, kept abstract. -/
structure BaseEntity (π : Type) where
  usage : HmEntityUsage
  unique_identifier : String
  platform : π
  deriving DecidableEq, Repr

/-- The attributes of a backend hub entity (`HmBaseHubEntity` in
helpers.py) read by the adapter. -/
structure HubEntity (π : Type) where
  unique_identifier : String
  platform : π
  deriving DecidableEq, Repr

/-- State stored by `ControlUnit.__init__` (lines 178-185): the base
state plus the two active-entity dicts (both empty at construction) and
the optional scheduler. -/
structure ControlUnitState (ρ π : Type) extends BaseControlUnitState (CentralUnit ρ) where
  _active_hm_entities : List (String × BaseEntity π)
  _active_hm_hub_entities : List (String × HubEntity π)
  _scheduler : Option Unit
  deriving DecidableEq, Repr

/-- Model of `ControlUnit.__init__` (control_unit.py lines 178-185). -/
def ControlUnit.init (ρ π : Type) (control_config : ControlConfig) : ControlUnitState ρ π :=
  { toBaseControlUnitState := BaseControlUnit.init (CentralUnit ρ) control_config
  , _active_hm_entities := []
  , _active_hm_hub_entities := []
  , _scheduler := none }

/-- Model of `ControlUnit.async_init_central` (lines 187-194): run the
base initialization, then, if the central handle is set, assign the
three adapter callback methods to the central's three callback slots. -/
def ControlUnit.async_init_central {ρ π : Type}
    (backend : CentralConfigArgs → CentralUnit ρ) (st : ControlUnitState ρ π) :
    ControlUnitState ρ π :=
  let st1 : ControlUnitState ρ π :=
    { st with toBaseControlUnitState :=
        BaseControlUnit.async_init_central backend st.toBaseControlUnitState }
  match st1._central with
  | some c =>
    { st1 with _central := some (
        { c with
          callback_entity_event := some HmCallbackRef.adapter_callback_entity_event
        , callback_system_event := some HmCallbackRef.adapter_callback_system_event
        , callback_ha_event := some HmCallbackRef.adapter_callback_ha_event }) }
  | none => st1

/-- Model of `ControlUnit.async_add_hm_entity` (lines 332-334). -/
def ControlUnit.async_add_hm_entity {ρ π : Type} (st : ControlUnitState ρ π)
    (entity_id : String) (hm_entity : BaseEntity π) : ControlUnitState ρ π :=
  { st with _active_hm_entities := dictInsert entity_id hm_entity st._active_hm_entities }

/-- Model of `ControlUnit.async_add_hm_hub_entity` (lines 336-340). -/
def ControlUnit.async_add_hm_hub_entity {ρ π : Type} (st : ControlUnitState ρ π)
    (entity_id : String) (hm_hub_entity : HubEntity π) : ControlUnitState ρ π :=
  { st with _active_hm_hub_entities :=
      dictInsert entity_id hm_hub_entity st._active_hm_hub_entities }

/-- Model of `ControlUnit.async_remove_hm_entity` (lines 342-344);
`Except.error ()` models the `KeyError` raised by `del` on a missing
key, in which case the state is unchanged. -/
def ControlUnit.async_remove_hm_entity {ρ π : Type} (st : ControlUnitState ρ π)
    (entity_id : String) : Except Unit (ControlUnitState ρ π) :=
  match dictRemove entity_id st._active_hm_entities with
  | some m => Except.ok { st with _active_hm_entities := m }
  | none => Except.error ()

/-- Model of `ControlUnit.async_remove_hm_hub_entity` (lines 346-348). -/
def ControlUnit.async_remove_hm_hub_entity {ρ π : Type} (st : ControlUnitState ρ π)
    (entity_id : String) : Except Unit (ControlUnitState ρ π) :=
  match dictRemove entity_id st._active_hm_hub_entities with
  | some m => Except.ok { st with _active_hm_hub_entities := m }
  | none => Except.error ()

/-- The values of the local `Platform` enum defined in const.py
(lines 30-63), in declaration order. -/
def platform_values : List String :=
  [ "air_quality", "alarm_control_panel", "binary_sensor", "button", "calendar"
  , "camera", "climate", "cover", "device_tracker", "fan", "geo_location"
  , "humidifier", "image_processing", "light", "lock", "mailbox", "media_player"
  , "notify", "number", "remote", "scene", "select", "sensor", "siren", "stt"
  , "switch", "tts", "vacuum", "update", "water_heater", "weather" ]

/-- Model of `const._get_hmip_local_platforms` / `HMIP_LOCAL_PLATFORMS`
(const.py lines 66-78): the values of the backend's
`AVAILABLE_HM_PLATFORMS` (the parameter `avail`, with `value` the
backend enum's value map) that also occur among the local `Platform`
values.  The loop-and-append of the source is a filter. -/
def HMIP_LOCAL_PLATFORMS {π : Type} (value : π → String) (avail : List π) : List String :=
  (avail.map value).filter (fun v => platform_values.contains v)

/-- The membership test of the loop in
`ControlUnit.async_get_new_hm_entities` (lines 239-244): the entity's
usage is not `ENTITY_NO_CREATE`, its unique identifier is not among the
active ones, and its platform value is in `HMIP_LOCAL_PLATFORMS`. -/
def new_entity_test {π : Type} [DecidableEq π] (value : π → String) (avail : List π)
    (active_unique_ids : List String) (e : BaseEntity π) : Bool :=
  decide (e.usage ≠ HmEntityUsage.entity_no_create)
    && !(active_unique_ids.contains e.unique_identifier)
    && (HMIP_LOCAL_PLATFORMS value avail).contains (value e.platform)

/-- The `for entity in new_entities` loop of
`ControlUnit.async_get_new_hm_entities` (lines 239-245): append each
entity passing `test` to the dict list of its key; `none` models a
`KeyError` on a missing key. -/
def append_matching_entities {π β : Type} [DecidableEq π] (test : β → Bool) (key : β → π) :
    List β → List (π × List β) → Option (List (π × List β))
  | [], m => some m
  | e :: rest, m =>
    match (if test e then dictAppend (key e) e m else some m) with
    | some m₁ => append_matching_entities test key rest m₁
    | none => none

/-- Model of `ControlUnit.async_get_new_hm_entities` (lines 227-247):
initialize a dict with an empty list for every platform of the
backend's `AVAILABLE_HM_PLATFORMS` (parameter `avail`), then append
every input entity passing the test to its platform's list.  `none`
models a raised `KeyError`. -/
def ControlUnit.async_get_new_hm_entities {ρ π : Type} [DecidableEq π]
    (value : π → String) (avail : List π) (st : ControlUnitState ρ π)
    (new_entities : List (BaseEntity π)) : Option (List (π × List (BaseEntity π))) :=
  let active_unique_ids :=
    st._active_hm_entities.map (fun kv => kv.2.unique_identifier)
  let hm_entities : List (π × List (BaseEntity π)) :=
    avail.map (fun p => (p, []))
  append_matching_entities (new_entity_test value avail active_unique_ids)
    (fun e => e.platform) new_entities hm_entities

/-- The backend-library coroutines awaited anywhere in the adapter
(each constructor names the backend method). -/
inductive BackendCall where
  | get_central
  | start
  | stop
  | fetch_sysvar_data
  | fetch_program_data
  | refresh_entity_data (paramset_key : String)
  deriving DecidableEq, Repr

/-- Outcome of running one adapter operation against a backend whose
calls may fail: the propagated result (`Except.error` models an
uncaught backend exception), the backend calls awaited in order (a
failing call included), and the log records emitted before control
returned. -/
structure OpResult (ε : Type) where
  result : Except ε Unit
  calls : List BackendCall
  logs : List String
  deriving Repr

/-- A backend on which every awaited call raises the exception `e`. -/
def failing_backend {ε : Type} (e : ε) : BackendCall → Except ε Unit :=
  fun _ => Except.error e

/-- A backend on which every awaited call succeeds. -/
def all_ok_backend : BackendCall → Except Unit Unit :=
  fun _ => Except.ok ()

/-- Model of the effects of `BaseControlUnit.async_init_central`
(lines 93-99): await `get_central()` on the built configuration; a
backend failure propagates uncaught. -/
def async_init_central_op {ε : Type} (backend : BackendCall → Except ε Unit) : OpResult ε :=
  match backend BackendCall.get_central with
  | Except.ok _ => ⟨Except.ok (), [BackendCall.get_central], ["debug: Init central unit"]⟩
  | Except.error e => ⟨Except.error e, [BackendCall.get_central], ["debug: Init central unit"]⟩

/-- Model of the effects of `BaseControlUnit.async_start_central`
(lines 101-114): log, await `start()` when a central is present (a
failure propagates uncaught and skips the final info log), else log an
error and fall through. -/
def async_start_central_op {ε γ : Type} (backend : BackendCall → Except ε Unit)
    (central : Option γ) : OpResult ε :=
  match central with
  | some _ =>
    match backend BackendCall.start with
    | Except.ok _ =>
      ⟨Except.ok (), [BackendCall.start],
        ["debug: Starting central unit", "info: Started central unit"]⟩
    | Except.error e =>
      ⟨Except.error e, [BackendCall.start], ["debug: Starting central unit"]⟩
  | none =>
    ⟨Except.ok (), [],
      ["debug: Starting central unit", "error: Starting central unit not possible",
        "info: Started central unit"]⟩

/-- Model of the effects of `BaseControlUnit.stop_central`
(lines 116-121): the body is entirely commented out, so the stop
request is discarded with no backend call and no log record. -/
def stop_central_op {ε : Type} : OpResult ε :=
  ⟨Except.ok (), [], []⟩

/-- Model of the effects of `BaseControlUnit.async_stop_central`
(lines 123-130): log, then await `stop()` when a central is present; a
failure propagates uncaught.  `ControlUnit.async_stop_central`
(lines 196-201) first calls the scheduler's `de_init`, whose body is
commented out, and then this method. -/
def async_stop_central_op {ε γ : Type} (backend : BackendCall → Except ε Unit)
    (central : Option γ) : OpResult ε :=
  match central with
  | some _ =>
    ⟨backend BackendCall.stop, [BackendCall.stop], ["debug: Stopping central unit"]⟩
  | none => ⟨Except.ok (), [], ["debug: Stopping central unit"]⟩

/-- Model of the effects of `HmScheduler._async_fetch_data`
(lines 606-613): log, await `fetch_sysvar_data()` then
`fetch_program_data()`; a failure propagates uncaught and skips the
rest. -/
def scheduler_fetch_data_op {ε : Type} (backend : BackendCall → Except ε Unit) : OpResult ε :=
  match backend BackendCall.fetch_sysvar_data with
  | Except.error e =>
    ⟨Except.error e, [BackendCall.fetch_sysvar_data],
      ["debug: Scheduled fetching of programs and sysvars"]⟩
  | Except.ok _ =>
    ⟨backend BackendCall.fetch_program_data,
      [BackendCall.fetch_sysvar_data, BackendCall.fetch_program_data],
      ["debug: Scheduled fetching of programs and sysvars"]⟩

/-- Model of the effects of `HmScheduler.async_fetch_sysvars`
(lines 615-618): log, await `fetch_sysvar_data()` once. -/
def scheduler_fetch_sysvars_op {ε : Type} (backend : BackendCall → Except ε Unit) : OpResult ε :=
  ⟨backend BackendCall.fetch_sysvar_data, [BackendCall.fetch_sysvar_data],
    ["debug: Manually fetching of sysvars"]⟩

/-- Model of the effects of `HmScheduler._async_fetch_master_data`
(lines 620-628): log, await `refresh_entity_data` with the `MASTER`
paramset key. -/
def scheduler_fetch_master_data_op {ε : Type}
    (backend : BackendCall → Except ε Unit) : OpResult ε :=
  ⟨backend (BackendCall.refresh_entity_data PARAMSET_KEY_MASTER),
    [BackendCall.refresh_entity_data PARAMSET_KEY_MASTER],
    ["debug: Scheduled fetching of master entities"]⟩

/-- Model of the effects of `ControlUnit.async_fetch_all_system_variables`
(lines 538-546): when no scheduler is set, log and return without any
backend call; otherwise await the scheduler's `async_fetch_sysvars`. -/
def async_fetch_all_system_variables_op {ε σ : Type}
    (backend : BackendCall → Except ε Unit) (scheduler : Option σ) : OpResult ε :=
  match scheduler with
  | none => ⟨Except.ok (), [], ["debug: Hub scheduler is not initialized"]⟩
  | some _ => scheduler_fetch_sysvars_op backend

/-- The full alphabet of backend calls awaited by some adapter
operation. -/
def awaited_backend_calls : List BackendCall :=
  [ BackendCall.get_central, BackendCall.start, BackendCall.stop
  , BackendCall.fetch_sysvar_data, BackendCall.fetch_program_data
  , BackendCall.refresh_entity_data PARAMSET_KEY_MASTER ]

/-- A concrete configuration, shaped like the one in example.py but with
`callback_host` and `callback_port` set to the backend sentinels
`IP_ANY_V4` and `PORT_ANY`. -/
def sentinel_config : ControlConfig :=
  { entry_id := "1234567890"
  , data :=
    { instance_name := "ccu"
    , host := "192.168.1.2"
    , username := "admin"
    , password := "secret"
    , tls := false
    , verify_tls := false
    , callback_host := some IP_ANY_V4
    , callback_port := some PORT_ANY
    , json_port := none
    , interface := [("HmIP-RF", { port := 2010, path := none })] }
  , default_callback_port := 56345 }

/-- C7: the master-paramset refresh interval (300 seconds) is strictly
longer than the system-variable fetch interval (30 seconds). -/
theorem master_scan_interval_gt_sysvar_scan_interval :
    MASTER_SCAN_INTERVAL > SYSVAR_SCAN_INTERVAL := by decide

/-- C2 counterexample: at the concrete input of trivial control-unit and
hub references, the scheduler state after construction has neither a
registered sysvar interval callback nor a registered master interval
callback, because the two listener registrations in
`HmScheduler.__init__` are commented out. -/
theorem hmscheduler_init_no_listeners_counterexample :
    ¬ ((HmScheduler.init () ()).remove_sysvar_listener.isSome = true
        ∧ (HmScheduler.init () ()).remove_master_listener.isSome = true) := by
  decide

/-- C2 (amended): constructing the scheduler only stores the control
unit and hub references; it registers no periodic listener (both
listener-remover slots stay unset), the interval registrations being
commented out in the source. -/
theorem hmscheduler_init_stores_refs_registers_nothing {γ η : Type}
    (control_unit : γ) (hm_hub : η) :
    HmScheduler.init control_unit hm_hub =
      { _control := control_unit
      , _hm_hub := hm_hub
      , remove_sysvar_listener := none
      , remove_master_listener := none } := rfl

/-- C1 counterexample: on the concrete accepted configuration
`sentinel_config`, whose `callback_host` equals the backend sentinel
`IP_ANY_V4`, the `callback_host` argument given to the backend
`CentralConfig` constructor is `None`, not the configuration's value:
the field is not passed unchanged. -/
theorem create_central_args_sentinel_counterexample :
    (BaseControlUnit.async_create_central_args
        (BaseControlUnit.init Unit sentinel_config)).callback_host
      ≠ sentinel_config.data.callback_host := by
  decide

/-- C1 (amended): building the backend central unit passes the
configuration fields unchanged into the backend `CentralConfig`
constructor — `instance_name` (as `name`), `host`, `username`,
`password`, `tls`, `verify_tls`, `json_port`, and every interface
entry's name, `port` and `path` — except that `callback_host` is
replaced by `None` when it equals the backend sentinel `IP_ANY_V4` and
`callback_port` is replaced by `None` when it equals the backend
sentinel `PORT_ANY`. -/
theorem create_central_args_forwards_fields {γ : Type} (cfg : ControlConfig) :
    (BaseControlUnit.async_create_central_args (BaseControlUnit.init γ cfg)).name
        = cfg.data.instance_name
  ∧ (BaseControlUnit.async_create_central_args (BaseControlUnit.init γ cfg)).host
        = cfg.data.host
  ∧ (BaseControlUnit.async_create_central_args (BaseControlUnit.init γ cfg)).username
        = cfg.data.username
  ∧ (BaseControlUnit.async_create_central_args (BaseControlUnit.init γ cfg)).password
        = cfg.data.password
  ∧ (BaseControlUnit.async_create_central_args (BaseControlUnit.init γ cfg)).tls
        = cfg.data.tls
  ∧ (BaseControlUnit.async_create_central_args (BaseControlUnit.init γ cfg)).verify_tls
        = cfg.data.verify_tls
  ∧ (BaseControlUnit.async_create_central_args (BaseControlUnit.init γ cfg)).json_port
        = cfg.data.json_port
  ∧ (BaseControlUnit.async_create_central_args (BaseControlUnit.init γ cfg)).callback_host
        = (if cfg.data.callback_host = some IP_ANY_V4 then none else cfg.data.callback_host)
  ∧ (BaseControlUnit.async_create_central_args (BaseControlUnit.init γ cfg)).callback_port
        = (if cfg.data.callback_port = some PORT_ANY then none else cfg.data.callback_port)
  ∧ (BaseControlUnit.async_create_central_args
        (BaseControlUnit.init γ cfg)).default_callback_port
        = cfg.default_callback_port
  ∧ (BaseControlUnit.async_create_central_args (BaseControlUnit.init γ cfg)).interface_configs
        = cfg.data.interface.map (fun p =>
            { central_name := cfg.data.instance_name
            , interface := p.1
            , port := p.2.port
            , path := p.2.path }) :=
  ⟨rfl, rfl, rfl, rfl, rfl, rfl, rfl, rfl, rfl, rfl, rfl⟩

/-- C3: a failure raised by any awaited backend call propagates out of
the adapter's wrapping operation as the identical error value (the
operations are parametric in the error type `ε`, so no adapter-specific
error can be constructed), and `stop_central` is the single call site
that discards its request silently: it makes no backend call, emits no
log record and reports success, while every other wrapping operation
facing a failing backend either propagates the error or has logged. -/
theorem backend_failures_never_wrapped {ε γ σ : Type} (e : ε) (c : γ) (s : σ) :
    (async_init_central_op (failing_backend e)).result = Except.error e
  ∧ (async_start_central_op (failing_backend e) (some c)).result = Except.error e
  ∧ (async_stop_central_op (failing_backend e) (some c)).result = Except.error e
  ∧ (scheduler_fetch_data_op (failing_backend e)).result = Except.error e
  ∧ (scheduler_fetch_sysvars_op (failing_backend e)).result = Except.error e
  ∧ (scheduler_fetch_master_data_op (failing_backend e)).result = Except.error e
  ∧ (async_fetch_all_system_variables_op (failing_backend e) (some s)).result
      = Except.error e
  ∧ (stop_central_op : OpResult ε) = ⟨Except.ok (), [], []⟩
  ∧ (async_start_central_op (failing_backend e) (none : Option γ)).logs ≠ []
  ∧ (async_stop_central_op (failing_backend e) (none : Option γ)).logs ≠ []
  ∧ (async_fetch_all_system_variables_op (failing_backend e) (none : Option σ)).logs ≠ [] := by
  refine ⟨rfl, rfl, rfl, rfl, rfl, rfl, rfl, rfl, ?_, ?_, ?_⟩ <;>
    simp [async_start_central_op, async_stop_central_op,
      async_fetch_all_system_variables_op]

/-- Witness for C3 at the concrete instance `ε = γ = σ = Unit`. -/
theorem backend_failures_never_wrapped_witness :
    (async_init_central_op (failing_backend ())).result = Except.error ()
  ∧ (async_start_central_op (failing_backend ()) (some ())).result = Except.error ()
  ∧ (async_stop_central_op (failing_backend ()) (some ())).result = Except.error ()
  ∧ (scheduler_fetch_data_op (failing_backend ())).result = Except.error ()
  ∧ (scheduler_fetch_sysvars_op (failing_backend ())).result = Except.error ()
  ∧ (scheduler_fetch_master_data_op (failing_backend ())).result = Except.error ()
  ∧ (async_fetch_all_system_variables_op (failing_backend ()) (some ())).result
      = Except.error ()
  ∧ (stop_central_op : OpResult Unit) = ⟨Except.ok (), [], []⟩
  ∧ (async_start_central_op (failing_backend ()) (none : Option Unit)).logs ≠ []
  ∧ (async_stop_central_op (failing_backend ()) (none : Option Unit)).logs ≠ []
  ∧ (async_fetch_all_system_variables_op (failing_backend ()) (none : Option Unit)).logs
      ≠ [] :=
  backend_failures_never_wrapped () () ()

/-- C6: the on-demand fetch performs no backend call (and succeeds) when
the scheduler is not set, and otherwise is exactly the scheduler's
sysvar fetch, which awaits the hub's `fetch_sysvar_data` once. -/
theorem fetch_all_system_variables_spec {ε σ : Type}
    (backend : BackendCall → Except ε Unit) (s : σ) :
    async_fetch_all_system_variables_op backend (none : Option σ) =
      ⟨Except.ok (), [], ["debug: Hub scheduler is not initialized"]⟩
  ∧ async_fetch_all_system_variables_op backend (some s) = scheduler_fetch_sysvars_op backend
  ∧ (async_fetch_all_system_variables_op backend (some s)).calls
      = [BackendCall.fetch_sysvar_data] :=
  ⟨rfl, rfl, rfl⟩

/-- C5: after `ControlUnit.async_init_central`, the stored central is
the backend-obtained handle with exactly its three callback slots
`callback_entity_event`, `callback_system_event` and
`callback_ha_event` set to the adapter's three callback methods; its
name and all remaining fields and callback slots (`rest`) are those the
backend returned, untouched. -/
theorem async_init_central_registers_three_callbacks {ρ π : Type}
    (backend : CentralConfigArgs → CentralUnit ρ) (st : ControlUnitState ρ π) :
    (ControlUnit.async_init_central backend st)._central =
      some (
        { backend (BaseControlUnit.async_create_central_args st.toBaseControlUnitState) with
          callback_entity_event := some HmCallbackRef.adapter_callback_entity_event
        , callback_system_event := some HmCallbackRef.adapter_callback_system_event
        , callback_ha_event := some HmCallbackRef.adapter_callback_ha_event })
  ∧ ((ControlUnit.async_init_central backend st)._central.map (fun c => c.rest)) =
      some (backend
        (BaseControlUnit.async_create_central_args st.toBaseControlUnitState)).rest
  ∧ ((ControlUnit.async_init_central backend st)._central.map (fun c => c.name)) =
      some (backend
        (BaseControlUnit.async_create_central_args st.toBaseControlUnitState)).name :=
  ⟨rfl, rfl, rfl⟩

/-- C8: the `central` property raises exactly when the central has not
been initialized: on the freshly constructed state it returns the
raised-exception message, after `async_init_central` it returns the
handle that was stored, unchanged, and in general it returns an error
if and only if the stored handle is `None`. -/
theorem central_property_spec {γ : Type} (cfg : ControlConfig)
    (backend : CentralConfigArgs → γ) (st : BaseControlUnitState γ) :
    BaseControlUnit.central_property (BaseControlUnit.init γ cfg) =
      Except.error "homematicip_local.central not initialized"
  ∧ (BaseControlUnit.async_init_central backend st)._central =
      some (backend (BaseControlUnit.async_create_central_args st))
  ∧ BaseControlUnit.central_property (BaseControlUnit.async_init_central backend st) =
      Except.ok (backend (BaseControlUnit.async_create_central_args st))
  ∧ (∀ s : BaseControlUnitState γ,
      (∃ msg, BaseControlUnit.central_property s = Except.error msg) ↔ s._central = none) := by
  refine ⟨rfl, rfl, rfl, fun s => ?_⟩
  rcases s with ⟨eid, cd, dp, inst, cen⟩
  cases cen <;> simp [BaseControlUnit.central_property]

/-- Witness for C8 at a concrete configuration and state. -/
theorem central_property_spec_witness :
    BaseControlUnit.central_property (BaseControlUnit.init Unit sentinel_config) =
      Except.error "homematicip_local.central not initialized"
  ∧ (BaseControlUnit.async_init_central (fun _ => ())
        (BaseControlUnit.init Unit sentinel_config))._central =
      some ((fun _ => ()) (BaseControlUnit.async_create_central_args
        (BaseControlUnit.init Unit sentinel_config)))
  ∧ BaseControlUnit.central_property (BaseControlUnit.async_init_central (fun _ => ())
        (BaseControlUnit.init Unit sentinel_config)) =
      Except.ok ((fun _ => ()) (BaseControlUnit.async_create_central_args
        (BaseControlUnit.init Unit sentinel_config)))
  ∧ ((∃ msg, BaseControlUnit.central_property (BaseControlUnit.init Unit sentinel_config)
        = Except.error msg) ↔ (BaseControlUnit.init Unit sentinel_config)._central = none) :=
  ⟨(central_property_spec sentinel_config (fun _ => ())
      (BaseControlUnit.init Unit sentinel_config)).1,
   (central_property_spec sentinel_config (fun _ => ())
      (BaseControlUnit.init Unit sentinel_config)).2.1,
   (central_property_spec sentinel_config (fun _ => ())
      (BaseControlUnit.init Unit sentinel_config)).2.2.1,
   (central_property_spec sentinel_config (fun _ => ())
      (BaseControlUnit.init Unit sentinel_config)).2.2.2
      (BaseControlUnit.init Unit sentinel_config)⟩

/-- C4 counterexample: the adapter awaits the backend coroutine
`get_central()` in `_async_create_central`, a call outside the set
consisting of start, stop and the fetch calls, so the awaited calls are
not exactly start, stop and fetch. -/
theorem awaited_calls_get_central_counterexample :
    BackendCall.get_central ∈ (async_init_central_op all_ok_backend).calls
  ∧ BackendCall.get_central ∉
      [ BackendCall.start, BackendCall.stop, BackendCall.fetch_sysvar_data
      , BackendCall.fetch_program_data
      , BackendCall.refresh_entity_data PARAMSET_KEY_MASTER ] := by
  decide

/-- C4 (amended): across all adapter operations, the awaited
backend-supplied asynchronous calls are exactly `get_central`, `start`,
`stop`, `fetch_sysvar_data`, `fetch_program_data`, and
`refresh_entity_data` on the MASTER paramset: every call awaited by any
operation lies in this set, and with a succeeding backend each member
of the set is awaited by some operation. -/
theorem awaited_calls_spec {ε γ σ : Type} (backend : BackendCall → Except ε Unit)
    (central : Option γ) (scheduler : Option σ) :
    ((async_init_central_op backend).calls ⊆ awaited_backend_calls
  ∧ (async_start_central_op backend central).calls ⊆ awaited_backend_calls
  ∧ (async_stop_central_op backend central).calls ⊆ awaited_backend_calls
  ∧ (stop_central_op : OpResult ε).calls ⊆ awaited_backend_calls
  ∧ (scheduler_fetch_data_op backend).calls ⊆ awaited_backend_calls
  ∧ (scheduler_fetch_sysvars_op backend).calls ⊆ awaited_backend_calls
  ∧ (scheduler_fetch_master_data_op backend).calls ⊆ awaited_backend_calls
  ∧ (async_fetch_all_system_variables_op backend scheduler).calls ⊆ awaited_backend_calls)
  ∧ (∀ bc ∈ awaited_backend_calls,
      bc ∈ (async_init_central_op all_ok_backend).calls
        ++ (async_start_central_op all_ok_backend (some ())).calls
        ++ (async_stop_central_op all_ok_backend (some ())).calls
        ++ (scheduler_fetch_data_op all_ok_backend).calls
        ++ (scheduler_fetch_master_data_op all_ok_backend).calls) := by
  constructor
  · refine ⟨?_, ?_, ?_, ?_, ?_, ?_, ?_, ?_⟩
    · cases h : backend BackendCall.get_central <;>
        simp [async_init_central_op, h, awaited_backend_calls]
    · cases central with
      | none => simp [async_start_central_op]
      | some c =>
        cases h : backend BackendCall.start <;>
          simp [async_start_central_op, h, awaited_backend_calls]
    · cases central with
      | none => simp [async_stop_central_op]
      | some c => simp [async_stop_central_op, awaited_backend_calls]
    · simp [stop_central_op]
    · cases h : backend BackendCall.fetch_sysvar_data <;>
        simp [scheduler_fetch_data_op, h, awaited_backend_calls]
    · simp [scheduler_fetch_sysvars_op, awaited_backend_calls]
    · simp [scheduler_fetch_master_data_op, awaited_backend_calls]
    · cases scheduler with
      | none => simp [async_fetch_all_system_variables_op]
      | some s =>
        simp [async_fetch_all_system_variables_op, scheduler_fetch_sysvars_op,
          awaited_backend_calls]
  · decide

/-- Witness for C4 at the concrete instance `ε = γ = σ = Unit` with a
succeeding backend; the final conjunct instantiates the set-coverage
part at the `stop` call. -/
theorem awaited_calls_spec_witness :
    (async_init_central_op all_ok_backend).calls ⊆ awaited_backend_calls
  ∧ (async_start_central_op all_ok_backend (some ())).calls ⊆ awaited_backend_calls
  ∧ (scheduler_fetch_data_op all_ok_backend).calls ⊆ awaited_backend_calls
  ∧ BackendCall.stop ∈ (async_init_central_op all_ok_backend).calls
        ++ (async_start_central_op all_ok_backend (some ())).calls
        ++ (async_stop_central_op all_ok_backend (some ())).calls
        ++ (scheduler_fetch_data_op all_ok_backend).calls
        ++ (scheduler_fetch_master_data_op all_ok_backend).calls :=
  ⟨(awaited_calls_spec all_ok_backend (some ()) (some ())).1.1,
   (awaited_calls_spec all_ok_backend (some ()) (some ())).1.2.1,
   (awaited_calls_spec all_ok_backend (some ()) (some ())).1.2.2.2.2.1,
   (awaited_calls_spec all_ok_backend (some ()) (some ())).2 BackendCall.stop (by decide)⟩

/-- A key occurs among an association list's keys iff `dictLookup`
finds a value for it. -/
theorem dictLookup_isSome_iff {κ β : Type} [DecidableEq κ] (k : κ) :
    ∀ m : List (κ × β), (dictLookup k m).isSome = true ↔ k ∈ m.map Prod.fst
  | [] => by simp [dictLookup]
  | (k₀, v) :: rest => by
    by_cases h : k₀ = k
    · subst h
      simp [dictLookup]
    · have hne : ¬k = k₀ := fun hh => h hh.symm
      simp [dictLookup, h, hne, dictLookup_isSome_iff k rest]

/-- Appending to the list stored under a present key succeeds, keeps
the key structure, appends to that key's value and leaves every other
key's value unchanged. -/
theorem dictAppend_spec {κ β : Type} [DecidableEq κ] (k : κ) (x : β) :
    ∀ (m : List (κ × List β)) (v : List β), dictLookup k m = some v →
      ∃ m₂, dictAppend k x m = some m₂
        ∧ m₂.map Prod.fst = m.map Prod.fst
        ∧ dictLookup k m₂ = some (v ++ [x])
        ∧ ∀ k₁, k₁ ≠ k → dictLookup k₁ m₂ = dictLookup k₁ m
  | [], v => by intro h; simp [dictLookup] at h
  | (k₀, l₀) :: rest, v => by
    intro h
    by_cases hk : k₀ = k
    · subst hk
      have hv : l₀ = v := by simpa [dictLookup] using h
      subst hv
      refine ⟨(k₀, l₀ ++ [x]) :: rest, ?_, rfl, ?_, ?_⟩
      · simp [dictAppend]
      · simp [dictLookup]
      · intro k₁ hk₁
        have hne : ¬k₀ = k₁ := fun hh => hk₁ hh.symm
        simp [dictLookup, hne]
    · have h₁ : dictLookup k rest = some v := by simpa [dictLookup, hk] using h
      obtain ⟨m₂, hm, hkeys, hlook, hother⟩ := dictAppend_spec k x rest v h₁
      refine ⟨(k₀, l₀) :: m₂, ?_, ?_, ?_, ?_⟩
      · simp [dictAppend, hk, hm]
      · simp [hkeys]
      · simp [dictLookup, hk, hlook]
      · intro k₁ hk₁
        by_cases h₀ : k₀ = k₁
        · subst h₀; simp [dictLookup]
        · simp [dictLookup, h₀, hother k₁ hk₁]

/-- Looking up any member of `l` in the dict that binds every member of
`l` to `x` yields `x`. -/
theorem dictLookup_const {κ β : Type} [DecidableEq κ] (x : β) :
    ∀ (l : List κ) (p : κ), p ∈ l → dictLookup p (l.map (fun q => (q, x))) = some x
  | [], p => by intro hp; cases hp
  | q :: rest, p => by
    intro hp
    by_cases h : q = p
    · subst h; simp [dictLookup]
    · have hrest : p ∈ rest := by
        cases hp with
        | head => exact absurd rfl h
        | tail _ hmem => exact hmem
      simp [dictLookup, h, dictLookup_const x rest p hrest]

/-- Specification of the entity-appending loop: when the key of every
entity passing the test is a key of the dict, the loop raises no
`KeyError`, preserves the key structure, and extends each key's list,
in input order, with exactly the passing entities keyed by it. -/
theorem append_matching_entities_spec {π β : Type} [DecidableEq π]
    (test : β → Bool) (key : β → π) :
    ∀ (l : List β) (m : List (π × List β)),
      (∀ e ∈ l, test e = true → key e ∈ m.map Prod.fst) →
      ∃ m₂, append_matching_entities test key l m = some m₂
        ∧ m₂.map Prod.fst = m.map Prod.fst
        ∧ ∀ p, dictLookup p m₂ =
            (dictLookup p m).map
              (fun v => v ++ l.filter (fun e => test e && decide (key e = p)))
  | [], m => by
    intro _
    refine ⟨m, rfl, rfl, fun p => ?_⟩
    cases dictLookup p m <;> simp
  | e :: rest, m => by
    intro hmem
    by_cases ht : test e = true
    · have hkey : key e ∈ m.map Prod.fst := hmem e (List.mem_cons_self e rest) ht
      have hsome : (dictLookup (key e) m).isSome = true :=
        (dictLookup_isSome_iff (key e) m).2 hkey
      obtain ⟨v, hv⟩ := Option.isSome_iff_exists.mp hsome
      obtain ⟨m₁, hm₁, hkeys₁, hlook₁, hother₁⟩ := dictAppend_spec (key e) e m v hv
      have hmem₁ : ∀ e₁ ∈ rest, test e₁ = true → key e₁ ∈ m₁.map Prod.fst := by
        intro e₁ he₁ ht₁
        rw [hkeys₁]
        exact hmem e₁ (List.mem_cons_of_mem e he₁) ht₁
      obtain ⟨m₂, hm₂, hkeys₂, hlook₂⟩ :=
        append_matching_entities_spec test key rest m₁ hmem₁
      refine ⟨m₂, ?_, by rw [hkeys₂, hkeys₁], fun p => ?_⟩
      · simp [append_matching_entities, ht, hm₁, hm₂]
      · rw [hlook₂ p]
        by_cases hp : key e = p
        · subst hp
          rw [hlook₁, hv]
          simp [List.filter_cons, ht]
        · rw [hother₁ p (fun hh => hp hh.symm)]
          simp [List.filter_cons, hp]
    · have hf : test e = false := by simpa using ht
      obtain ⟨m₂, hm₂, hkeys₂, hlook₂⟩ :=
        append_matching_entities_spec test key rest m
          (fun e₁ he₁ ht₁ => hmem e₁ (List.mem_cons_of_mem e he₁) ht₁)
      refine ⟨m₂, ?_, hkeys₂, fun p => ?_⟩
      · simp [append_matching_entities, hf, hm₂]
      · rw [hlook₂ p]
        simp [List.filter_cons, hf]

/-- C9: for every input list of entities, `async_get_new_hm_entities`
raises no `KeyError` and returns a dict whose key list is exactly the
backend's `AVAILABLE_HM_PLATFORMS` (platforms with no matching entity
keep their initial empty list), and whose list at each platform `p` is
exactly the input entities, in input order, whose usage is not
`ENTITY_NO_CREATE`, whose unique identifier is not that of an active
entity, whose platform value lies in `HMIP_LOCAL_PLATFORMS`, and whose
platform is `p`.  The hypothesis `hinj` records that the backend
platform enum assigns distinct values to distinct members. -/
theorem async_get_new_hm_entities_spec {ρ π : Type} [DecidableEq π]
    (value : π → String) (avail : List π)
    (hinj : ∀ a b : π, value a = value b → a = b)
    (st : ControlUnitState ρ π) (new_entities : List (BaseEntity π)) :
    ∃ m, ControlUnit.async_get_new_hm_entities value avail st new_entities = some m
      ∧ m.map Prod.fst = avail
      ∧ ∀ p ∈ avail, dictLookup p m = some (new_entities.filter (fun e =>
          (decide (e.usage ≠ HmEntityUsage.entity_no_create)
            && !((st._active_hm_entities.map
                    (fun kv => kv.2.unique_identifier)).contains e.unique_identifier)
            && (HMIP_LOCAL_PLATFORMS value avail).contains (value e.platform))
          && decide (e.platform = p))) := by
  have init_keys :
      ((avail.map (fun p => (p, ([] : List (BaseEntity π))))).map Prod.fst) = avail := by
    induction avail with
    | nil => rfl
    | cons a t ih => simp only [List.map_cons] at ih ⊢; rw [ih]
  have hmem : ∀ e ∈ new_entities,
      new_entity_test value avail
        (st._active_hm_entities.map (fun kv => kv.2.unique_identifier)) e = true →
      e.platform ∈ (avail.map (fun p => (p, ([] : List (BaseEntity π))))).map Prod.fst := by
    intro e he ht
    rw [init_keys]
    have h3 : (HMIP_LOCAL_PLATFORMS value avail).contains (value e.platform) = true := by
      have := ht
      simp only [new_entity_test, Bool.and_eq_true] at this
      exact this.2
    have hmemf : value e.platform ∈ HMIP_LOCAL_PLATFORMS value avail := by
      simpa using h3
    have hmap : value e.platform ∈ avail.map value := by
      simp only [HMIP_LOCAL_PLATFORMS] at hmemf
      exact (List.mem_filter.mp hmemf).1
    obtain ⟨q, hq, hqv⟩ := List.mem_map.mp hmap
    exact (hinj q e.platform hqv) ▸ hq
  obtain ⟨m, hm, hkeys, hlook⟩ :=
    append_matching_entities_spec
      (new_entity_test value avail
        (st._active_hm_entities.map (fun kv => kv.2.unique_identifier)))
      (fun e => e.platform) new_entities
      (avail.map (fun p => (p, []))) hmem
  refine ⟨m, hm, by rw [hkeys, init_keys], fun p hp => ?_⟩
  rw [hlook p, dictLookup_const [] avail p hp]
  simp [new_entity_test]

/-- Inserting a binding makes it the value found for its key. -/
theorem dictLookup_dictInsert_self {κ β : Type} [DecidableEq κ] (k : κ) (v : β) :
    ∀ m : List (κ × β), dictLookup k (dictInsert k v m) = some v
  | [] => by simp [dictInsert, dictLookup]
  | (k₀, v₀) :: rest => by
    by_cases h : k₀ = k
    · subst h; simp [dictInsert, dictLookup]
    · simp [dictInsert, dictLookup, h, dictLookup_dictInsert_self k v rest]

/-- Inserting a binding leaves the value found for every other key
unchanged. -/
theorem dictLookup_dictInsert_other {κ β : Type} [DecidableEq κ] (k k₁ : κ) (v : β)
    (hne : k₁ ≠ k) : ∀ m : List (κ × β), dictLookup k₁ (dictInsert k v m) = dictLookup k₁ m
  | [] => by
    have h : ¬k = k₁ := fun hh => hne hh.symm
    simp [dictInsert, dictLookup, h]
  | (k₀, v₀) :: rest => by
    by_cases h : k₀ = k
    · subst h
      have h₁ : ¬k₀ = k₁ := fun hh => hne hh.symm
      simp [dictInsert, dictLookup, h₁]
    · by_cases h₂ : k₀ = k₁
      · subst h₂; simp [dictInsert, dictLookup, h]
      · simp [dictInsert, dictLookup, h, h₂, dictLookup_dictInsert_other k k₁ v hne rest]

/-- Deleting a key fails exactly when the key is absent. -/
theorem dictRemove_eq_none_iff {κ β : Type} [DecidableEq κ] (k : κ) :
    ∀ m : List (κ × β), dictRemove k m = none ↔ dictLookup k m = none
  | [] => by simp [dictRemove, dictLookup]
  | (k₀, v₀) :: rest => by
    by_cases h : k₀ = k
    · subst h; simp [dictRemove, dictLookup]
    · simp [dictRemove, dictLookup, h, dictRemove_eq_none_iff k rest]

/-- A successful deletion leaves the value found for every other key
unchanged. -/
theorem dictRemove_lookup_other {κ β : Type} [DecidableEq κ] (k : κ) :
    ∀ (m m₂ : List (κ × β)), dictRemove k m = some m₂ →
      ∀ k₁, k₁ ≠ k → dictLookup k₁ m₂ = dictLookup k₁ m
  | [], m₂ => by intro h; simp [dictRemove] at h
  | (k₀, v₀) :: rest, m₂ => by
    intro h k₁ hk₁
    by_cases h₀ : k₀ = k
    · subst h₀
      have hm : rest = m₂ := by simpa [dictRemove] using h
      subst hm
      have hne : ¬k₀ = k₁ := fun hh => hk₁ hh.symm
      simp [dictLookup, hne]
    · have h' : (dictRemove k rest).map (fun m => (k₀, v₀) :: m) = some m₂ := by
        simpa [dictRemove, h₀] using h
      obtain ⟨m₃, hm₃, hm₂⟩ := Option.map_eq_some'.mp h'
      subst hm₂
      by_cases h₂ : k₀ = k₁
      · subst h₂; simp [dictLookup]
      · simp [dictLookup, h₂, dictRemove_lookup_other k rest m₃ hm₃ k₁ hk₁]

/-- C10: the two active-entity dicts are independent.  Adding under an
entity id sets exactly that entry of the targeted dict, leaves every
other entry of it unchanged and leaves the other dict untouched;
removing raises `KeyError` exactly when the entity id is absent from
the targeted dict (leaving the state unchanged, as the operation
returns before mutating), and a successful removal changes no other
entry of the targeted dict and leaves the other dict untouched. -/
theorem active_entity_maps_independent {ρ π : Type}
    (st : ControlUnitState ρ π) (entity_id : String)
    (e : BaseEntity π) (he : HubEntity π) :
    ((ControlUnit.async_add_hm_entity st entity_id e)._active_hm_hub_entities
        = st._active_hm_hub_entities
      ∧ dictLookup entity_id
          (ControlUnit.async_add_hm_entity st entity_id e)._active_hm_entities = some e
      ∧ ∀ k, k ≠ entity_id →
          dictLookup k (ControlUnit.async_add_hm_entity st entity_id e)._active_hm_entities
            = dictLookup k st._active_hm_entities)
  ∧ ((ControlUnit.async_add_hm_hub_entity st entity_id he)._active_hm_entities
        = st._active_hm_entities
      ∧ dictLookup entity_id
          (ControlUnit.async_add_hm_hub_entity st entity_id he)._active_hm_hub_entities
            = some he
      ∧ ∀ k, k ≠ entity_id →
          dictLookup k
            (ControlUnit.async_add_hm_hub_entity st entity_id he)._active_hm_hub_entities
              = dictLookup k st._active_hm_hub_entities)
  ∧ ((ControlUnit.async_remove_hm_entity st entity_id = Except.error ()
        ↔ dictLookup entity_id st._active_hm_entities = none)
      ∧ ∀ st₂, ControlUnit.async_remove_hm_entity st entity_id = Except.ok st₂ →
          st₂._active_hm_hub_entities = st._active_hm_hub_entities
          ∧ ∀ k, k ≠ entity_id →
              dictLookup k st₂._active_hm_entities = dictLookup k st._active_hm_entities)
  ∧ ((ControlUnit.async_remove_hm_hub_entity st entity_id = Except.error ()
        ↔ dictLookup entity_id st._active_hm_hub_entities = none)
      ∧ ∀ st₂, ControlUnit.async_remove_hm_hub_entity st entity_id = Except.ok st₂ →
          st₂._active_hm_entities = st._active_hm_entities
          ∧ ∀ k, k ≠ entity_id →
              dictLookup k st₂._active_hm_hub_entities
                = dictLookup k st._active_hm_hub_entities) := by
  refine ⟨⟨rfl, dictLookup_dictInsert_self entity_id e st._active_hm_entities,
      fun k hk => dictLookup_dictInsert_other entity_id k e hk st._active_hm_entities⟩,
    ⟨rfl, dictLookup_dictInsert_self entity_id he st._active_hm_hub_entities,
      fun k hk => dictLookup_dictInsert_other entity_id k he hk st._active_hm_hub_entities⟩,
    ⟨?_, ?_⟩, ⟨?_, ?_⟩⟩
  · cases h : dictRemove entity_id st._active_hm_entities with
    | none =>
      have := (dictRemove_eq_none_iff entity_id st._active_hm_entities).1 h
      simp [ControlUnit.async_remove_hm_entity, h, this]
    | some m =>
      have hnone : ¬dictLookup entity_id st._active_hm_entities = none := by
        intro hl
        rw [← dictRemove_eq_none_iff entity_id st._active_hm_entities] at hl
        rw [h] at hl
        cases hl
      simp [ControlUnit.async_remove_hm_entity, h, hnone]
  · intro st₂ hok
    cases h : dictRemove entity_id st._active_hm_entities with
    | none => simp [ControlUnit.async_remove_hm_entity, h] at hok
    | some m =>
      simp only [ControlUnit.async_remove_hm_entity, h, Except.ok.injEq] at hok
      subst hok
      exact ⟨rfl, fun k hk =>
        dictRemove_lookup_other entity_id st._active_hm_entities m h k hk⟩
  · cases h : dictRemove entity_id st._active_hm_hub_entities with
    | none =>
      have := (dictRemove_eq_none_iff entity_id st._active_hm_hub_entities).1 h
      simp [ControlUnit.async_remove_hm_hub_entity, h, this]
    | some m =>
      have hnone : ¬dictLookup entity_id st._active_hm_hub_entities = none := by
        intro hl
        rw [← dictRemove_eq_none_iff entity_id st._active_hm_hub_entities] at hl
        rw [h] at hl
        cases hl
      simp [ControlUnit.async_remove_hm_hub_entity, h, hnone]
  · intro st₂ hok
    cases h : dictRemove entity_id st._active_hm_hub_entities with
    | none => simp [ControlUnit.async_remove_hm_hub_entity, h] at hok
    | some m =>
      simp only [ControlUnit.async_remove_hm_hub_entity, h, Except.ok.injEq] at hok
      subst hok
      exact ⟨rfl, fun k hk =>
        dictRemove_lookup_other entity_id st._active_hm_hub_entities m h k hk⟩

/-- A concrete control-unit state with one active device entity and one
active hub entity, over the platform type `String` with the identity
value map. -/
def witness_state : ControlUnitState Unit String :=
  { toBaseControlUnitState := BaseControlUnit.init (CentralUnit Unit) sentinel_config
  , _active_hm_entities :=
      [("sensor.active",
        { usage := HmEntityUsage.entity, unique_identifier := "uid1", platform := "sensor" })]
  , _active_hm_hub_entities :=
      [("hub.active", { unique_identifier := "huid1", platform := "sensor" })]
  , _scheduler := none }

/-- A concrete input entity list exercising all four cases of the
`async_get_new_hm_entities` test: creatable new entity, entity excluded
by usage, entity excluded as already active, entity excluded by
platform. -/
def witness_new_entities : List (BaseEntity String) :=
  [ { usage := HmEntityUsage.entity, unique_identifier := "uid2", platform := "sensor" }
  , { usage := HmEntityUsage.entity_no_create, unique_identifier := "uid3"
    , platform := "sensor" }
  , { usage := HmEntityUsage.entity, unique_identifier := "uid1", platform := "sensor" }
  , { usage := HmEntityUsage.entity, unique_identifier := "uid4", platform := "climate" } ]

/-- A concrete device entity used by the C10 witness. -/
def witness_entity : BaseEntity String :=
  { usage := HmEntityUsage.entity, unique_identifier := "uid9", platform := "switch" }

/-- A concrete hub entity used by the C10 witness. -/
def witness_hub_entity : HubEntity String :=
  { unique_identifier := "huid9", platform := "sensor" }

/-- Witness for C9 at the concrete platform type `String` with the
identity value map, the available platforms `sensor` and `switch`, the
state `witness_state` and the inputs `witness_new_entities`. -/
theorem async_get_new_hm_entities_spec_witness :
    ∃ m, ControlUnit.async_get_new_hm_entities (fun v => v) ["sensor", "switch"]
          witness_state witness_new_entities = some m
      ∧ m.map Prod.fst = ["sensor", "switch"]
      ∧ ∀ p ∈ ["sensor", "switch"], dictLookup p m = some (witness_new_entities.filter
          (fun e =>
            (decide (e.usage ≠ HmEntityUsage.entity_no_create)
              && !((witness_state._active_hm_entities.map
                      (fun kv => kv.2.unique_identifier)).contains e.unique_identifier)
              && (HMIP_LOCAL_PLATFORMS (fun v => v) ["sensor", "switch"]).contains
                    e.platform)
            && decide (e.platform = p))) :=
  async_get_new_hm_entities_spec (fun v => v) ["sensor", "switch"]
    (fun _ _ h => h) witness_state witness_new_entities

/-- Witness for C10 at the concrete state `witness_state`, the entity
id of its one active device entity, and the concrete entities
`witness_entity` and `witness_hub_entity`. -/
theorem active_entity_maps_independent_witness :
    ((ControlUnit.async_add_hm_entity witness_state "sensor.active"
          witness_entity)._active_hm_hub_entities
        = witness_state._active_hm_hub_entities
      ∧ dictLookup "sensor.active"
          (ControlUnit.async_add_hm_entity witness_state "sensor.active"
            witness_entity)._active_hm_entities = some witness_entity
      ∧ ∀ k, k ≠ "sensor.active" →
          dictLookup k (ControlUnit.async_add_hm_entity witness_state "sensor.active"
              witness_entity)._active_hm_entities
            = dictLookup k witness_state._active_hm_entities)
  ∧ ((ControlUnit.async_add_hm_hub_entity witness_state "sensor.active"
          witness_hub_entity)._active_hm_entities
        = witness_state._active_hm_entities
      ∧ dictLookup "sensor.active"
          (ControlUnit.async_add_hm_hub_entity witness_state "sensor.active"
            witness_hub_entity)._active_hm_hub_entities
            = some witness_hub_entity
      ∧ ∀ k, k ≠ "sensor.active" →
          dictLookup k
            (ControlUnit.async_add_hm_hub_entity witness_state "sensor.active"
              witness_hub_entity)._active_hm_hub_entities
              = dictLookup k witness_state._active_hm_hub_entities)
  ∧ ((ControlUnit.async_remove_hm_entity witness_state "sensor.active" = Except.error ()
        ↔ dictLookup "sensor.active" witness_state._active_hm_entities = none)
      ∧ ∀ st₂, ControlUnit.async_remove_hm_entity witness_state "sensor.active"
            = Except.ok st₂ →
          st₂._active_hm_hub_entities = witness_state._active_hm_hub_entities
          ∧ ∀ k, k ≠ "sensor.active" →
              dictLookup k st₂._active_hm_entities
                = dictLookup k witness_state._active_hm_entities)
  ∧ ((ControlUnit.async_remove_hm_hub_entity witness_state "sensor.active"
          = Except.error ()
        ↔ dictLookup "sensor.active" witness_state._active_hm_hub_entities = none)
      ∧ ∀ st₂, ControlUnit.async_remove_hm_hub_entity witness_state "sensor.active"
            = Except.ok st₂ →
          st₂._active_hm_entities = witness_state._active_hm_entities
          ∧ ∀ k, k ≠ "sensor.active" →
              dictLookup k st₂._active_hm_hub_entities
                = dictLookup k witness_state._active_hm_hub_entities) :=
  active_entity_maps_independent witness_state "sensor.active"
    witness_entity witness_hub_entity
